import Mathlib

/-!
# Verification of the lens-ai object-detection pipeline

Shallow embedding of the `ObjectDetector` class (OpenCV.js based object
detection module).  JavaScript numbers are modelled as exact rationals `ℚ`;
`Math.PI` becomes the fixed rational constant `jsPI`.  Division in `ℚ` is
total (`x / 0 = 0`), which is only ever relevant for degenerate inputs the
claims do not depend on.  The OpenCV geometry primitives (`cv.contourArea`,
`cv.boundingRect`, `cv.arcLength`, `cv.findContours`) are external
collaborators: a `Contour` carries the values they return.
-/

namespace LensAI

/-- A `cv.boundingRect` result: an axis-aligned rectangle. -/
structure Rect where
  x : ℚ
  y : ℚ
  width : ℚ
  height : ℚ
deriving DecidableEq, Repr

/-- One extracted outline, carrying the values the external OpenCV geometry
primitives return for it: `cv.contourArea`, `cv.boundingRect`,
`cv.arcLength(contour, true)`. -/
structure Contour where
  area : ℚ
  rect : Rect
  perimeter : ℚ
deriving DecidableEq, Repr

/-- The closed label taxonomy `this.objectTypes` (modelled as a tagged union
instead of the source strings `person`, `face`, …). -/
inductive ObjectType
  | human
  | face
  | rectangular
  | circular
  | square
  | vertical
  | horizontal
  | small
  | large
  | unknown
deriving DecidableEq, Repr

/-- One emitted detection record (the object literal built in
`analyzeContours`). -/
structure Detection where
  type : ObjectType
  rect : Rect
  area : ℚ
  aspectRatio : ℚ
  circularity : ℚ
  extent : ℚ
  confidence : ℚ
  centerX : ℚ
  centerY : ℚ
deriving DecidableEq, Repr

/-- Source constant `this.minContourArea = 1500`. -/
def minContourArea : ℚ := 1500

/-- Source constant `this.humanAspectRatioMin = 0.3`. -/
def humanAspectRatioMin : ℚ := 0.3

/-- Source constant `this.humanAspectRatioMax = 0.8`. -/
def humanAspectRatioMax : ℚ := 0.8

/-- The value `Math.PI` as the shortest decimal of the IEEE double. -/
def jsPI : ℚ := 3.141592653589793

/-- Source function `isLikelyHuman(rect, aspectRatio, area)`. -/
def isLikelyHuman (rect : Rect) (aspectRatio area : ℚ) : Bool :=
  if aspectRatio < humanAspectRatioMin ∨ aspectRatio > humanAspectRatioMax then false
  else if area < 10000 ∨ area > 200000 then false
  else if rect.height < 100 then false
  else true

/-- Source function `classifyObject(rect, aspectRatio, extent, circularity, area)`. -/
def classifyObject (rect : Rect) (aspectRatio extent circularity area : ℚ) : ObjectType :=
  if isLikelyHuman rect aspectRatio area then .human
  else if circularity > 0.7 then .circular
  else if aspectRatio ≥ 0.8 ∧ aspectRatio ≤ 1.2 then .square
  else if aspectRatio > 1.5 ∨ aspectRatio < 0.67 then
    if aspectRatio > 1.5 then .horizontal else .vertical
  else if area > 50000 then .large
  else if area < 5000 then .small
  else .rectangular

/-- Source function `calculateConfidence(objectType, aspectRatio, circularity, extent)`:
label-specific raw score, then clamped by
`Math.max(0.1, Math.min(0.9, confidence))`.  (The `0.5` base value of the
source is overwritten on every `switch` branch, `default` included.) -/
def calculateConfidence (objectType : ObjectType) (aspectRatio circularity extent : ℚ) : ℚ :=
  let confidence : ℚ :=
    match objectType with
    | .human => if aspectRatio ≥ 0.4 ∧ aspectRatio ≤ 0.6 then 0.8 else 0.6
    | .circular => min 0.9 circularity
    | .square => 1.0 - |aspectRatio - 1.0|
    | _ => min 0.7 extent
  max 0.1 (min 0.9 confidence)

/-- The detection record `analyzeContours` builds for a contour that passed
the minimum-area filter. -/
def mkDetection (c : Contour) : Detection :=
  let aspectRatio : ℚ := c.rect.width / c.rect.height
  let extent : ℚ := c.area / (c.rect.width * c.rect.height)
  let circularity : ℚ := 4 * jsPI * c.area / (c.perimeter * c.perimeter)
  let objectType := classifyObject c.rect aspectRatio extent circularity c.area
  { type := objectType
    rect := c.rect
    area := c.area
    aspectRatio := aspectRatio
    circularity := circularity
    extent := extent
    confidence := calculateConfidence objectType aspectRatio circularity extent
    centerX := c.rect.x + c.rect.width / 2
    centerY := c.rect.y + c.rect.height / 2 }

/-- The per-contour loop of `analyzeContours`: contours with
`area < this.minContourArea` are skipped, every other contour produces one
detection, in order. -/
def analyzeContoursRaw (contours : List Contour) : List Detection :=
  contours.filterMap fun c =>
    if c.area < minContourArea then none else some (mkDetection c)

/-- Source function `calculateOverlap(rect1, rect2)`: Intersection-over-Union of two
rectangles; `0` when they do not overlap (touching edges count as no
overlap: `x2 <= x1 || y2 <= y1`). -/
def calculateOverlap (rect1 rect2 : Rect) : ℚ :=
  let x1 := max rect1.x rect2.x
  let y1 := max rect1.y rect2.y
  let x2 := min (rect1.x + rect1.width) (rect2.x + rect2.width)
  let y2 := min (rect1.y + rect1.height) (rect2.y + rect2.height)
  if x2 ≤ x1 ∨ y2 ≤ y1 then 0
  else
    let intersection := (x2 - x1) * (y2 - y1)
    let area1 := rect1.width * rect1.height
    let area2 := rect2.width * rect2.height
    let union := area1 + area2 - intersection
    intersection / union

/-- Source constant `const overlapThreshold = 0.5` in `removeOverlappingDetections`. -/
def overlapThreshold : ℚ := 0.5

/-- Source function `removeOverlappingDetections(detections)`: scan in discovery order; a
candidate is dropped when its overlap with some already kept detection
exceeds the threshold, otherwise appended to `filtered`. -/
def removeOverlappingDetections (detections : List Detection) : List Detection :=
  detections.foldl
    (fun filtered d =>
      if filtered.any fun f => decide (calculateOverlap d.rect f.rect > overlapThreshold)
      then filtered
      else filtered ++ [d])
    []

/-- Stable insertion step of the descending confidence sort modelling
`this.detectedObjects.sort((a, b) => b.confidence - a.confidence)`
(JavaScript `Array.prototype.sort` is stable). -/
def insertByConfidence (d : Detection) : List Detection → List Detection
  | [] => [d]
  | e :: es =>
    if e.confidence ≤ d.confidence then d :: e :: es
    else e :: insertByConfidence d es

/-- Stable sort by descending `confidence`. -/
def sortByConfidenceDesc : List Detection → List Detection
  | [] => []
  | d :: ds => insertByConfidence d (sortByConfidenceDesc ds)

/-- Source function `postProcessDetections()`: overlap suppression, then confidence sort,
then `slice(0, 10)` when more than 10 survive. -/
def postProcessDetections (detections : List Detection) : List Detection :=
  let deduped := removeOverlappingDetections detections
  let ranked := sortByConfidenceDesc deduped
  if ranked.length > 10 then ranked.take 10 else ranked

/-- Source function `analyzeContours` end to end: the per-contour loop followed by
`postProcessDetections`. -/
def analyzeContours (contours : List Contour) : List Detection :=
  postProcessDetections (analyzeContoursRaw contours)

/-! ## Detector state, initialize / processFrame / cleanup

The `cv.Mat` / `cv.MatVector` fields are emscripten-bound handles.  A field
is `null` until `initialize` runs (`unallocated`), then holds a live object
(`alive`); `delete()` marks the handle `deleted` but the field keeps
referencing it — and, per emscripten embind semantics, calling `delete()`
again on a deleted handle raises. -/

/-- State of one matrix field of the detector. -/
inductive MatSlot
  | unallocated
  | alive
  | deleted
deriving DecidableEq, Repr

/-- Ways an internal stage can raise. -/
inductive CvError
  /-- embind `delete()` called on an already deleted object. -/
  | instanceDeleted
  /-- A `getImageData` call with a zero-sized region raises `IndexSizeError`. -/
  | invalidImageAccess
  /-- A `TypedArray.set` call raises `RangeError` when the source is longer than
  the target buffer. -/
  | bufferOverflow
  /-- any other failing OpenCV processing stage. -/
  | internal
deriving DecidableEq, Repr

/-- The mutable fields of an `ObjectDetector` instance; `cfgWidth` and
`cfgHeight` record the dimensions `initialize` sized `src`/`dst` to. -/
structure DetectorState where
  isInitialized : Bool
  detectedObjects : List Detection
  src : MatSlot
  dst : MatSlot
  gray : MatSlot
  contours : MatSlot
  hierarchy : MatSlot
  cfgWidth : ℕ
  cfgHeight : ℕ
deriving DecidableEq, Repr

/-- Constructor `new ObjectDetector()`: fields null, not initialized. -/
def newObjectDetector : DetectorState :=
  { isInitialized := false
    detectedObjects := []
    src := .unallocated
    dst := .unallocated
    gray := .unallocated
    contours := .unallocated
    hierarchy := .unallocated
    cfgWidth := 0
    cfgHeight := 0 }

/-- Source method `initialize(videoWidth, videoHeight)`: allocates the working matrices
and sets the flag, returning `true`; if allocation raises (modelled by
`allocOk = false`) the `catch` returns `false` and the state is unchanged. -/
def initializeDetector (videoWidth videoHeight : ℕ) (allocOk : Bool) (st : DetectorState) :
    DetectorState × Bool :=
  if allocOk then
    ({ st with
        src := .alive
        dst := .alive
        gray := .alive
        contours := .alive
        hierarchy := .alive
        cfgWidth := videoWidth
        cfgHeight := videoHeight
        isInitialized := true }, true)
  else (st, false)

/-- One `if (this.x) this.x.delete()` statement of `cleanup`: since `null` is
falsy so an unallocated field is skipped; a live handle is deleted; a
deleted handle is still truthy and its `delete()` raises. -/
def deleteSlot : MatSlot → Except CvError MatSlot
  | .unallocated => .ok .unallocated
  | .alive => .ok .deleted
  | .deleted => .error .instanceDeleted

/-- Source method `cleanup()`: delete each allocated matrix in turn (a raise aborts the
remaining statements, leaving the flag set), then clear the initialized
flag.  The fields are never set back to `null`. -/
def cleanup (st : DetectorState) : Except CvError DetectorState :=
  match deleteSlot st.src with
  | .error e => .error e
  | .ok src =>
    match deleteSlot st.dst with
    | .error e => .error e
    | .ok dst =>
      match deleteSlot st.gray with
      | .error e => .error e
      | .ok gray =>
        match deleteSlot st.contours with
        | .error e => .error e
        | .ok contours =>
          match deleteSlot st.hierarchy with
          | .error e => .error e
          | .ok hierarchy =>
            .ok { st with
                    src := src
                    dst := dst
                    gray := gray
                    contours := contours
                    hierarchy := hierarchy
                    isInitialized := false }

/-- One call's worth of external input to `processFrame`: the canvas
dimensions the frame is captured at, the outlines `cv.findContours` would
return, and whether the OpenCV processing stages complete without raising. -/
structure FrameInput where
  canvasWidth : ℕ
  canvasHeight : ℕ
  contours : List Contour
  cvOk : Bool
deriving DecidableEq, Repr

/-- The frame-capture steps of `processFrame`:
`ctx.getImageData(0, 0, canvas.width, canvas.height)` raises on a
zero-sized region, and `this.src.data.set(imageData.data)` raises when the
captured RGBA buffer is longer than the working buffer `src` allocated at
`initialize`.  A smaller buffer is copied without complaint. -/
def captureFrame (st : DetectorState) (inp : FrameInput) : Except CvError Unit :=
  if inp.canvasWidth = 0 ∨ inp.canvasHeight = 0 then .error .invalidImageAccess
  else if st.cfgWidth * st.cfgHeight < inp.canvasWidth * inp.canvasHeight then
    .error .bufferOverflow
  else .ok ()

/-- The body of `processFrame`'s `try` block after clearing
`detectedObjects`: capture, preprocess + find contours (raising when
`cvOk` is false), then analyze and post-process. -/
def runPipeline (st : DetectorState) (inp : FrameInput) : Except CvError (List Detection) :=
  match captureFrame st inp with
  | .error e => .error e
  | .ok _ =>
    if inp.cvOk then .ok (analyzeContours inp.contours) else .error .internal

/-- Source method `processFrame(ctx, video, canvas)`: immediately returns `[]` when not
initialized; otherwise runs the pipeline under `try`, storing and returning
the detections, and the `catch` turns any internal raise into `[]`. -/
def processFrame (st : DetectorState) (inp : FrameInput) : DetectorState × List Detection :=
  if st.isInitialized = false then (st, [])
  else
    match runPipeline st inp with
    | .ok dets => ({ st with detectedObjects := dets }, dets)
    | .error _ => ({ st with detectedObjects := [] }, [])

/-! ## Claim-side definitions

Definitions written from the specification text, to be compared with the
source-side definitions above. -/

/-- The classification rule chain exactly as the specification lists it:
an ordered list of (predicate, label) rules, first match winning. -/
def claimRuleChain (rect : Rect) (aspectRatio circularity area : ℚ) : ObjectType :=
  if 0.3 ≤ aspectRatio ∧ aspectRatio ≤ 0.8 ∧ 10000 ≤ area ∧ area ≤ 200000 ∧
      100 ≤ rect.height then .human
  else if circularity > 0.7 then .circular
  else if aspectRatio ≥ 0.8 ∧ aspectRatio ≤ 1.2 then .square
  else if aspectRatio > 1.5 then .horizontal
  else if aspectRatio < 0.67 then .vertical
  else if area > 50000 then .large
  else if area < 5000 then .small
  else .rectangular

/-- The clamp `Math.max(0.1, Math.min(0.9, x))`: the clamp the spec requires on every
confidence value. -/
def clampConfidence (x : ℚ) : ℚ := max 0.1 (min 0.9 x)

/-- The raw (pre-clamp) per-label confidence score as the specification
states it. -/
def claimRawConfidence (objectType : ObjectType) (aspectRatio circularity extent : ℚ) : ℚ :=
  match objectType with
  | .human => if aspectRatio ≥ 0.4 ∧ aspectRatio ≤ 0.6 then 0.8 else 0.6
  | .circular => min 0.9 circularity
  | .square => 1.0 - |aspectRatio - 1.0|
  | _ => min 0.7 extent

/-! ## Helper lemmas -/

theorem isLikelyHuman_eq_true_iff (rect : Rect) (ar area : ℚ) :
    isLikelyHuman rect ar area = true ↔
      (humanAspectRatioMin ≤ ar ∧ ar ≤ humanAspectRatioMax ∧
       10000 ≤ area ∧ area ≤ 200000 ∧ 100 ≤ rect.height) := by
  unfold isLikelyHuman
  split_ifs with h1 h2 h3
  · simp only [Bool.false_eq_true, false_iff]
    rintro ⟨hmin, hmax, -⟩
    rcases h1 with h | h <;> linarith
  · simp only [Bool.false_eq_true, false_iff]
    rintro ⟨-, -, hlo, hhi, -⟩
    rcases h2 with h | h <;> linarith
  · simp only [Bool.false_eq_true, false_iff]
    rintro ⟨-, -, -, -, hh⟩
    linarith
  · push_neg at h1 h2
    simp only [true_iff]
    exact ⟨h1.1, h1.2, h2.1, h2.2, le_of_not_lt h3⟩

/-! ## Claims -/

/-- C1: for every contour past the minimum-area filter the classifier is
the fixed first-match rule chain person / circular / square / horizontal /
vertical / large / small / rectangular, with the person predicate being
aspect ratio in [0.3, 0.8], area in [10000, 200000] and bounding-box height
at least 100; in particular a shape satisfying both the person predicate
and circularity > 0.7 is classified person. -/
theorem classifyObject_is_claim_rule_chain
    (rect : Rect) (aspectRatio extent circularity area : ℚ) :
    classifyObject rect aspectRatio extent circularity area =
      claimRuleChain rect aspectRatio circularity area ∧
    ((0.3 ≤ aspectRatio ∧ aspectRatio ≤ 0.8 ∧ 10000 ≤ area ∧ area ≤ 200000 ∧
        100 ≤ rect.height) → 0.7 < circularity →
      classifyObject rect aspectRatio extent circularity area = .human) := by
  have hiff := isLikelyHuman_eq_true_iff rect aspectRatio area
  simp only [humanAspectRatioMin, humanAspectRatioMax] at hiff
  refine ⟨?_, fun hp _hc => ?_⟩
  · by_cases hp : (0.3 : ℚ) ≤ aspectRatio ∧ aspectRatio ≤ 0.8 ∧
        (10000 : ℚ) ≤ area ∧ area ≤ 200000 ∧ (100 : ℚ) ≤ rect.height
      <;> by_cases hc : circularity > (0.7 : ℚ)
      <;> by_cases hsq : aspectRatio ≥ (0.8 : ℚ) ∧ aspectRatio ≤ (1.2 : ℚ)
      <;> by_cases h15 : aspectRatio > (1.5 : ℚ)
      <;> by_cases h67 : aspectRatio < (0.67 : ℚ)
      <;> simp [classifyObject, claimRuleChain, hiff, hp, hc, hsq, h15, h67]
  · have hH : isLikelyHuman rect aspectRatio area = true := hiff.mpr hp
    simp [classifyObject, hH]

/-- Witness for C1: a shape with aspect ratio 0.5, area 15000, height 250
and circularity 0.8 satisfies both the person predicate and the circular
predicate and is classified person. -/
theorem classifyObject_is_claim_rule_chain_witness :
    classifyObject ⟨0, 0, 100, 250⟩ 0.5 0.6 0.8 15000 = .human :=
  (classifyObject_is_claim_rule_chain ⟨0, 0, 100, 250⟩ 0.5 0.6 0.8 15000).2
    (by with_unfolding_all decide) (by with_unfolding_all decide)

theorem analyzeContoursRaw_eq_filter_map (contours : List Contour) :
    analyzeContoursRaw contours =
      (contours.filter fun c => minContourArea ≤ c.area).map mkDetection := by
  induction contours with
  | nil => rfl
  | cons a t ih =>
    by_cases hA : a.area < minContourArea
    · simp [analyzeContoursRaw, List.filterMap_cons, List.filter_cons, hA, not_le.mpr hA,
        ih.symm]
    · simp [analyzeContoursRaw, List.filterMap_cons, List.filter_cons, hA, not_lt.mp hA,
        ih.symm]

/-- C2: the per-contour pass emits one Detection per contour exactly when
the computed area is at least 1500; a contour of area 1499 is dropped and a
contour of area exactly 1500 is kept. -/
theorem detection_emitted_iff_area_at_least_1500 (contours : List Contour) (c : Contour) :
    analyzeContoursRaw contours =
      (contours.filter fun c => minContourArea ≤ c.area).map mkDetection ∧
    (c.area = 1499 → analyzeContoursRaw [c] = []) ∧
    (c.area = 1500 → analyzeContoursRaw [c] = [mkDetection c]) := by
  refine ⟨analyzeContoursRaw_eq_filter_map contours, fun h => ?_, fun h => ?_⟩
  · simp [analyzeContoursRaw, h, minContourArea, show (1499 : ℚ) < 1500 by norm_num]
  · simp [analyzeContoursRaw, h, minContourArea, lt_irrefl]

/-- Witness for C2: a contour of area 1499 yields no detection, one of
area 1500 yields exactly its detection. -/
theorem detection_emitted_iff_area_at_least_1500_witness :
    analyzeContoursRaw [({ area := 1499, rect := ⟨0, 0, 40, 40⟩, perimeter := 160 } : Contour)]
        = [] ∧
    analyzeContoursRaw [({ area := 1500, rect := ⟨0, 0, 40, 40⟩, perimeter := 160 } : Contour)]
        = [mkDetection { area := 1500, rect := ⟨0, 0, 40, 40⟩, perimeter := 160 }] :=
  ⟨(detection_emitted_iff_area_at_least_1500 []
      { area := 1499, rect := ⟨0, 0, 40, 40⟩, perimeter := 160 }).2.1 rfl,
   (detection_emitted_iff_area_at_least_1500 []
      { area := 1500, rect := ⟨0, 0, 40, 40⟩, perimeter := 160 }).2.2 rfl⟩

/-- C6: the raw confidence before clamping is 0.8 for a person with aspect
ratio in [0.4, 0.6] and 0.6 for any other person, min(0.9, circularity) for
circular, 1 − |aspectRatio − 1| for square, min(0.7, extent) otherwise, and
the result is clamped to [0.1, 0.9]. -/
theorem calculateConfidence_is_clamped_claim_score
    (objectType : ObjectType) (aspectRatio circularity extent : ℚ) :
    calculateConfidence objectType aspectRatio circularity extent =
      clampConfidence (claimRawConfidence objectType aspectRatio circularity extent) := by
  cases objectType <;> rfl

theorem mem_of_mem_nms_foldl {d : Detection} :
    ∀ (dets acc : List Detection),
      d ∈ dets.foldl
            (fun filtered x =>
              if filtered.any fun f => decide (calculateOverlap x.rect f.rect > overlapThreshold)
              then filtered
              else filtered ++ [x])
            acc →
      d ∈ acc ∨ d ∈ dets
  | [], acc, h => Or.inl h
  | a :: t, acc, h => by
    rw [List.foldl_cons] at h
    rcases mem_of_mem_nms_foldl t _ h with h' | h'
    · split_ifs at h' with hov
      · exact Or.inl h'
      · rcases List.mem_append.mp h' with h'' | h''
        · exact Or.inl h''
        · exact Or.inr (List.mem_cons.mpr (Or.inl (List.mem_singleton.mp h'')))
    · exact Or.inr (List.mem_cons.mpr (Or.inr h'))

theorem mem_of_mem_removeOverlappingDetections {d : Detection} {dets : List Detection}
    (h : d ∈ removeOverlappingDetections dets) : d ∈ dets := by
  rcases mem_of_mem_nms_foldl dets [] h with h' | h'
  · cases h'
  · exact h'

theorem mem_of_mem_insertByConfidence {d e : Detection} :
    ∀ {l : List Detection}, d ∈ insertByConfidence e l → d = e ∨ d ∈ l := by
  intro l
  induction l with
  | nil =>
    intro h
    simpa [insertByConfidence] using h
  | cons a t ih =>
    intro h
    rw [insertByConfidence] at h
    split_ifs at h with hle
    · rcases List.mem_cons.mp h with rfl | h'
      · exact Or.inl rfl
      · exact Or.inr h'
    · rcases List.mem_cons.mp h with rfl | h'
      · exact Or.inr (List.mem_cons_self ..)
      · rcases ih h' with rfl | h''
        · exact Or.inl rfl
        · exact Or.inr (List.mem_cons.mpr (Or.inr h''))

theorem mem_of_mem_sortByConfidenceDesc {d : Detection} :
    ∀ {l : List Detection}, d ∈ sortByConfidenceDesc l → d ∈ l := by
  intro l
  induction l with
  | nil => intro h; simpa [sortByConfidenceDesc] using h
  | cons a t ih =>
    intro h
    rw [sortByConfidenceDesc] at h
    rcases mem_of_mem_insertByConfidence h with rfl | h'
    · exact List.mem_cons_self ..
    · exact List.mem_cons.mpr (Or.inr (ih h'))

theorem mem_of_mem_postProcessDetections {d : Detection} {dets : List Detection}
    (h : d ∈ postProcessDetections dets) : d ∈ dets := by
  rw [postProcessDetections] at h
  split_ifs at h with hlen
  · exact mem_of_mem_removeOverlappingDetections
      (mem_of_mem_sortByConfidenceDesc (List.take_subset _ _ h))
  · exact mem_of_mem_removeOverlappingDetections (mem_of_mem_sortByConfidenceDesc h)

theorem calculateConfidence_mem_range (objectType : ObjectType)
    (aspectRatio circularity extent : ℚ) :
    0.1 ≤ calculateConfidence objectType aspectRatio circularity extent ∧
      calculateConfidence objectType aspectRatio circularity extent ≤ 0.9 := by
  unfold calculateConfidence
  exact ⟨le_max_left .., max_le (by norm_num) (min_le_left ..)⟩

theorem mem_analyzeContoursRaw_eq_mkDetection {d : Detection} {contours : List Contour}
    (h : d ∈ analyzeContoursRaw contours) : ∃ c ∈ contours, d = mkDetection c := by
  rw [analyzeContoursRaw_eq_filter_map] at h
  rcases List.mem_map.mp h with ⟨c, hc, rfl⟩
  exact ⟨c, List.mem_filter.mp hc |>.1, rfl⟩

theorem mem_analyzeContours_confidence {contours : List Contour} {d : Detection}
    (h : d ∈ analyzeContours contours) :
    0.1 ≤ d.confidence ∧ d.confidence ≤ 0.9 := by
  rcases mem_analyzeContoursRaw_eq_mkDetection
      (mem_of_mem_postProcessDetections h) with ⟨c, -, rfl⟩
  simpa [mkDetection] using calculateConfidence_mem_range _ _ _ _

theorem analyzeContours_singleton (c : Contour) (h : ¬ c.area < minContourArea) :
    analyzeContours [c] = [mkDetection c] := by
  simp [analyzeContours, analyzeContoursRaw, h, postProcessDetections,
    removeOverlappingDetections, sortByConfidenceDesc, insertByConfidence]

/-- The IoU formula exactly as the specification states it: intersection
area / (area1 + area2 − intersection area), and 0 when the boxes do not
overlap. -/
def claimIoU (rect1 rect2 : Rect) : ℚ :=
  let interW := min (rect1.x + rect1.width) (rect2.x + rect2.width) - max rect1.x rect2.x
  let interH := min (rect1.y + rect1.height) (rect2.y + rect2.height) - max rect1.y rect2.y
  if 0 < interW ∧ 0 < interH then
    (interW * interH) /
      (rect1.width * rect1.height + rect2.width * rect2.height - interW * interH)
  else 0

/-- The deduplication pass exactly as the specification states it: visit
detections in discovery order, discard a candidate exactly when its IoU
with some already accepted detection strictly exceeds the threshold, so the
first-discovered member of an overlapping cluster is kept. -/
def claimNms (accepted : List Detection) : List Detection → List Detection
  | [] => accepted
  | d :: ds =>
    if ∃ f ∈ accepted, calculateOverlap d.rect f.rect > overlapThreshold then
      claimNms accepted ds
    else claimNms (accepted ++ [d]) ds

theorem calculateOverlap_eq_claimIoU (rect1 rect2 : Rect) :
    calculateOverlap rect1 rect2 = claimIoU rect1 rect2 := by
  unfold calculateOverlap claimIoU
  by_cases h : min (rect1.x + rect1.width) (rect2.x + rect2.width) ≤ max rect1.x rect2.x ∨
      min (rect1.y + rect1.height) (rect2.y + rect2.height) ≤ max rect1.y rect2.y
  · rw [if_pos h, if_neg]
    rintro ⟨hw, hh⟩
    rcases h with h | h <;> linarith
  · rw [if_neg h, if_pos]
    push_neg at h
    exact ⟨by linarith [h.1], by linarith [h.2]⟩

theorem nms_foldl_eq_claimNms (dets : List Detection) :
    ∀ acc : List Detection,
      dets.foldl
          (fun filtered d =>
            if filtered.any fun f => decide (calculateOverlap d.rect f.rect > overlapThreshold)
            then filtered
            else filtered ++ [d])
          acc
        = claimNms acc dets := by
  induction dets with
  | nil => intro acc; rfl
  | cons a t ih =>
    intro acc
    rw [claimNms]
    simp only [List.foldl_cons]
    by_cases h : ∃ f ∈ acc, calculateOverlap a.rect f.rect > overlapThreshold
    · have hany : (acc.any fun f =>
          decide (calculateOverlap a.rect f.rect > overlapThreshold)) = true := by
        rw [List.any_eq_true]
        rcases h with ⟨f, hf, hgt⟩
        exact ⟨f, hf, decide_eq_true hgt⟩
      rw [if_pos hany, if_pos h]
      exact ih acc
    · have hany : ¬ ((acc.any fun f =>
          decide (calculateOverlap a.rect f.rect > overlapThreshold)) = true) := by
        rw [List.any_eq_true]
        rintro ⟨f, hf, hdec⟩
        exact h ⟨f, hf, of_decide_eq_true hdec⟩
      rw [if_neg hany, if_neg h]
      exact ih (acc ++ [a])

theorem removeOverlapping_pair_of_le (d1 d2 : Detection)
    (h : ¬ calculateOverlap d2.rect d1.rect > overlapThreshold) :
    removeOverlappingDetections [d1, d2] = [d1, d2] := by
  unfold removeOverlappingDetections
  simp [h]

theorem removeOverlapping_pair_of_gt (d1 d2 : Detection)
    (h : calculateOverlap d2.rect d1.rect > overlapThreshold) :
    removeOverlappingDetections [d1, d2] = [d1] := by
  unfold removeOverlappingDetections
  simp [h]

/-- C4: deduplication visits detections in discovery order, discarding a
candidate exactly when its IoU with an already accepted detection strictly
exceeds 0.5 (the first-discovered member of a cluster is kept, never
replaced); the IoU is intersection / (area1 + area2 − intersection) and 0
for disjoint boxes; a pair at IoU ≤ 0.5 both survive, at IoU > 0.5 the
later one is suppressed. -/
theorem nms_first_wins_iou_strict_half (dets : List Detection) (rect1 rect2 : Rect)
    (d1 d2 : Detection) :
    removeOverlappingDetections dets = claimNms [] dets ∧
    calculateOverlap rect1 rect2 = claimIoU rect1 rect2 ∧
    (calculateOverlap d2.rect d1.rect ≤ overlapThreshold →
      removeOverlappingDetections [d1, d2] = [d1, d2]) ∧
    (calculateOverlap d2.rect d1.rect > overlapThreshold →
      removeOverlappingDetections [d1, d2] = [d1]) :=
  ⟨nms_foldl_eq_claimNms dets [],
   calculateOverlap_eq_claimIoU rect1 rect2,
   fun h => removeOverlapping_pair_of_le d1 d2 (not_lt.mpr h),
   fun h => removeOverlapping_pair_of_gt d1 d2 h⟩

/-- A bare detection record used to exercise the deduplication pass. -/
def plainDetection (r : Rect) : Detection :=
  { type := .rectangular
    rect := r
    area := r.width * r.height
    aspectRatio := 1
    circularity := 0.5
    extent := 1
    confidence := 0.5
    centerX := r.x + r.width / 2
    centerY := r.y + r.height / 2 }

/-- Witness for C4: two 30×30 boxes offset by 10 have IoU exactly 0.5 and
both survive; offset by 5 the IoU is 5/7 > 0.5 and the later detection is
suppressed. -/
theorem nms_first_wins_iou_strict_half_witness :
    removeOverlappingDetections
        [plainDetection ⟨0, 0, 30, 30⟩, plainDetection ⟨10, 0, 30, 30⟩] =
      [plainDetection ⟨0, 0, 30, 30⟩, plainDetection ⟨10, 0, 30, 30⟩] ∧
    removeOverlappingDetections
        [plainDetection ⟨0, 0, 30, 30⟩, plainDetection ⟨5, 0, 30, 30⟩] =
      [plainDetection ⟨0, 0, 30, 30⟩] :=
  ⟨(nms_first_wins_iou_strict_half [] ⟨0, 0, 1, 1⟩ ⟨0, 0, 1, 1⟩
      (plainDetection ⟨0, 0, 30, 30⟩) (plainDetection ⟨10, 0, 30, 30⟩)).2.2.1
      (by with_unfolding_all decide),
   (nms_first_wins_iou_strict_half [] ⟨0, 0, 1, 1⟩ ⟨0, 0, 1, 1⟩
      (plainDetection ⟨0, 0, 30, 30⟩) (plainDetection ⟨5, 0, 30, 30⟩)).2.2.2
      (by with_unfolding_all decide)⟩

/-- Sorted by confidence in descending order. -/
def ConfSortedDesc (l : List Detection) : Prop :=
  l.Pairwise fun a b => b.confidence ≤ a.confidence

theorem insertByConfidence_pairwise (d : Detection) (l : List Detection)
    (h : ConfSortedDesc l) : ConfSortedDesc (insertByConfidence d l) := by
  induction l with
  | nil => simp [insertByConfidence, ConfSortedDesc]
  | cons e es ih =>
    rcases List.pairwise_cons.mp h with ⟨he, hes⟩
    rw [insertByConfidence]
    split_ifs with hle
    · refine List.pairwise_cons.mpr ⟨?_, h⟩
      intro x hx
      rcases List.mem_cons.mp hx with rfl | hx
      · exact hle
      · exact le_trans (he x hx) hle
    · refine List.pairwise_cons.mpr ⟨?_, ih hes⟩
      intro x hx
      rcases mem_of_mem_insertByConfidence hx with rfl | hx
      · exact le_of_not_le hle
      · exact he x hx

theorem sortByConfidenceDesc_pairwise (l : List Detection) :
    ConfSortedDesc (sortByConfidenceDesc l) := by
  induction l with
  | nil => simp [sortByConfidenceDesc, ConfSortedDesc]
  | cons d ds ih => exact insertByConfidence_pairwise d _ ih

theorem postProcessDetections_eq_take (dets : List Detection) :
    postProcessDetections dets =
      (sortByConfidenceDesc (removeOverlappingDetections dets)).take 10 := by
  unfold postProcessDetections
  dsimp only
  split_ifs with h
  · rfl
  · rw [List.take_of_length_le (le_of_not_lt h)]

theorem postProcessDetections_length_le (dets : List Detection) :
    (postProcessDetections dets).length ≤ 10 := by
  rw [postProcessDetections_eq_take, List.length_take]
  exact min_le_left ..

theorem postProcessDetections_sorted (dets : List Detection) :
    ConfSortedDesc (postProcessDetections dets) := by
  rw [postProcessDetections_eq_take]
  exact (sortByConfidenceDesc_pairwise _).sublist (List.take_sublist ..)

theorem runPipeline_ok_eq {st : DetectorState} {inp : FrameInput} {dets : List Detection}
    (h : runPipeline st inp = .ok dets) : dets = analyzeContours inp.contours := by
  unfold runPipeline at h
  split at h
  · cases h
  · split at h
    · cases h
      rfl
    · cases h

theorem processFrame_snd_cases (st : DetectorState) (inp : FrameInput) :
    (processFrame st inp).2 = [] ∨
      (processFrame st inp).2 = analyzeContours inp.contours := by
  unfold processFrame
  split_ifs with h
  · exact Or.inl rfl
  · cases hp : runPipeline st inp with
    | ok dets => simpa [hp] using Or.inr (runPipeline_ok_eq hp)
    | error e => simp [hp]

/-- C5: the final detection list a frame returns has at most 10 entries and
is sorted by descending confidence, and the sort and truncation happen only
after overlap suppression (post-processing is literally: suppress, then
sort, then take 10). -/
theorem processFrame_output_ranked_truncated (st : DetectorState) (inp : FrameInput)
    (dets : List Detection) :
    (processFrame st inp).2.length ≤ 10 ∧
    ConfSortedDesc (processFrame st inp).2 ∧
    postProcessDetections dets =
      (sortByConfidenceDesc (removeOverlappingDetections dets)).take 10 := by
  refine ⟨?_, ?_, postProcessDetections_eq_take dets⟩ <;>
    rcases processFrame_snd_cases st inp with h | h <;> rw [h]
  · simp
  · exact postProcessDetections_length_le _
  · simp [ConfSortedDesc]
  · exact postProcessDetections_sorted _

/-- C7: `processFrame` is a total function into a state/result pair — no
exception escapes it — and its returned detection list is either the
complete, fully scored and deduplicated pipeline output for the frame or
the empty list, never a partial one. -/
theorem processFrame_complete_or_empty (st : DetectorState) (inp : FrameInput) :
    (processFrame st inp).2 = [] ∨
      (processFrame st inp).2 = analyzeContours inp.contours :=
  processFrame_snd_cases st inp

/-- C3: every emitted detection — whether read from the per-frame analysis
or from the list processFrame returns — has confidence in the closed
interval [0.1, 0.9], for every label and all descriptor values. -/
theorem emitted_confidence_in_range (contours : List Contour) (st : DetectorState)
    (inp : FrameInput) (d : Detection) :
    (d ∈ analyzeContours contours → 0.1 ≤ d.confidence ∧ d.confidence ≤ 0.9) ∧
    (d ∈ (processFrame st inp).2 → 0.1 ≤ d.confidence ∧ d.confidence ≤ 0.9) := by
  refine ⟨fun h => mem_analyzeContours_confidence h, fun h => ?_⟩
  rcases processFrame_snd_cases st inp with he | he <;> rw [he] at h
  · cases h
  · exact mem_analyzeContours_confidence h

/-- Witness for C3: the detection of a single square-ish contour of area
2500 has its confidence inside [0.1, 0.9]. -/
theorem emitted_confidence_in_range_witness :
    0.1 ≤ (mkDetection { area := 2500, rect := ⟨0, 0, 50, 50⟩, perimeter := 200 }).confidence ∧
    (mkDetection { area := 2500, rect := ⟨0, 0, 50, 50⟩, perimeter := 200 }).confidence ≤ 0.9 :=
  (emitted_confidence_in_range [{ area := 2500, rect := ⟨0, 0, 50, 50⟩, perimeter := 200 }]
    newObjectDetector { canvasWidth := 1, canvasHeight := 1, contours := [], cvOk := true }
    (mkDetection { area := 2500, rect := ⟨0, 0, 50, 50⟩, perimeter := 200 })).1
    (by
      rw [analyzeContours_singleton _ (by with_unfolding_all decide)]
      exact List.mem_singleton_self _)

theorem processFrame_of_pipeline_error {st : DetectorState} {inp : FrameInput} {e : CvError}
    (hinit : ¬ st.isInitialized = false) (h : runPipeline st inp = .error e) :
    processFrame st inp = ({ st with detectedObjects := [] }, []) := by
  unfold processFrame
  rw [if_neg hinit, h]

/-- The detector as configured by a successful `initialize(100, 100)`. -/
def c8State : DetectorState := (initializeDetector 100 100 true newObjectDetector).1

/-- A 50×50 frame — mismatched with the configured 100×100 working size —
carrying one large contour. -/
def c8Input : FrameInput :=
  { canvasWidth := 50
    canvasHeight := 50
    contours := [{ area := 15000, rect := ⟨0, 0, 60, 150⟩, perimeter := 420 }]
    cvOk := true }

/-- Counterexample to C8: with the working size configured at 100×100, a
mismatched 50×50 frame is not rejected — no InvalidFrame error exists
anywhere in the pipeline, the smaller buffer is copied without complaint,
and processFrame returns a non-empty detection list for the frame. -/
theorem mismatched_frame_produces_detections_cex :
    c8State.isInitialized = true ∧
    c8Input.canvasWidth ≠ c8State.cfgWidth ∧
    c8Input.canvasHeight ≠ c8State.cfgHeight ∧
    (processFrame c8State c8Input).2 ≠ [] := by
  refine ⟨rfl, by decide, by decide, ?_⟩
  have h2 : (processFrame c8State c8Input).2 = analyzeContours c8Input.contours := rfl
  rw [h2,
    show c8Input.contours =
      [({ area := 15000, rect := ⟨0, 0, 60, 150⟩, perimeter := 420 } : Contour)] from rfl,
    analyzeContours_singleton _ (by with_unfolding_all decide)]
  exact List.cons_ne_nil _ _

/-- C8 amended: a zero-dimension frame makes the capture stage raise and a
frame larger than the configured working size makes the buffer copy raise;
both raises are swallowed by processFrame's catch, which returns the empty
list (no InvalidFrame error kind is surfaced to the caller); a frame
smaller than the configured working size is not rejected at all and
processing continues on the partially updated buffer. -/
theorem invalid_frames_swallowed_to_empty (st : DetectorState) (inp : FrameInput)
    (hinit : st.isInitialized = true) :
    (inp.canvasWidth = 0 ∨ inp.canvasHeight = 0 →
      processFrame st inp = ({ st with detectedObjects := [] }, [])) ∧
    (st.cfgWidth * st.cfgHeight < inp.canvasWidth * inp.canvasHeight →
      processFrame st inp = ({ st with detectedObjects := [] }, [])) := by
  have hni : ¬ st.isInitialized = false := by simp [hinit]
  constructor
  · intro hz
    have hcap : captureFrame st inp = .error .invalidImageAccess := by
      unfold captureFrame
      rw [if_pos hz]
    have hrp : runPipeline st inp = .error .invalidImageAccess := by
      unfold runPipeline
      rw [hcap]
    exact processFrame_of_pipeline_error hni hrp
  · intro hbig
    by_cases hz : inp.canvasWidth = 0 ∨ inp.canvasHeight = 0
    · have hcap : captureFrame st inp = .error .invalidImageAccess := by
        unfold captureFrame
        rw [if_pos hz]
      have hrp : runPipeline st inp = .error .invalidImageAccess := by
        unfold runPipeline
        rw [hcap]
      exact processFrame_of_pipeline_error hni hrp
    · have hcap : captureFrame st inp = .error .bufferOverflow := by
        unfold captureFrame
        rw [if_neg hz, if_pos hbig]
      have hrp : runPipeline st inp = .error .bufferOverflow := by
        unfold runPipeline
        rw [hcap]
      exact processFrame_of_pipeline_error hni hrp

/-- Witness for the amended C8: a 0×50 frame and an oversized 200×200
frame each produce the empty result (with the stored detections cleared),
not an error surfaced to the caller. -/
theorem invalid_frames_swallowed_to_empty_witness :
    processFrame c8State { canvasWidth := 0, canvasHeight := 50, contours := [], cvOk := true }
        = ({ c8State with detectedObjects := [] }, []) ∧
    processFrame c8State { canvasWidth := 200, canvasHeight := 200, contours := [], cvOk := true }
        = ({ c8State with detectedObjects := [] }, []) :=
  ⟨(invalid_frames_swallowed_to_empty c8State
      { canvasWidth := 0, canvasHeight := 50, contours := [], cvOk := true } rfl).1
      (Or.inl rfl),
   (invalid_frames_swallowed_to_empty c8State
      { canvasWidth := 200, canvasHeight := 200, contours := [], cvOk := true } rfl).2
      (by decide)⟩

/-- The detector as configured by a successful `initialize(640, 480)`. -/
def c9Init : DetectorState := (initializeDetector 640 480 true newObjectDetector).1

/-- The state after the first `cleanup()` following `initialize(640, 480)`:
every matrix field still references its (now deleted) matrix. -/
def c9Cleaned : DetectorState :=
  { isInitialized := false
    detectedObjects := []
    src := .deleted
    dst := .deleted
    gray := .deleted
    contours := .deleted
    hierarchy := .deleted
    cfgWidth := 640
    cfgHeight := 480 }

/-- Counterexample to C9: after a successful initialize, the first cleanup
succeeds, but a second cleanup raises — the matrix fields were never set
back to null, so `delete()` runs again on already deleted matrices. -/
theorem cleanup_second_call_raises_cex :
    cleanup c9Init = .ok c9Cleaned ∧
    cleanup c9Cleaned = .error .instanceDeleted :=
  ⟨rfl, rfl⟩

/-- C9 amended: cleanup is safe and idempotent when no matrices were ever
allocated (all fields still null); after a successful initialize, the
first cleanup succeeds, but any further cleanup raises because the fields
keep referencing the deleted matrices. -/
theorem cleanup_safe_uninitialized_but_not_idempotent (st : DetectorState) :
    ((st.src = .unallocated ∧ st.dst = .unallocated ∧ st.gray = .unallocated ∧
        st.contours = .unallocated ∧ st.hierarchy = .unallocated) →
      cleanup st = .ok { st with isInitialized := false } ∧
      cleanup { st with isInitialized := false } =
        .ok { st with isInitialized := false }) ∧
    (∀ (w h : ℕ) (st₀ st₂ : DetectorState),
      cleanup (initializeDetector w h true st₀).1 = .ok st₂ →
      cleanup st₂ = .error .instanceDeleted) := by
  constructor
  · rcases st with ⟨ini, dobj, s, sd, sg, sc, sh, w, hgt⟩
    rintro ⟨rfl, rfl, rfl, rfl, rfl⟩
    exact ⟨rfl, rfl⟩
  · intro w h st₀ st₂ hok
    have : st₂ = { st₀ with
        src := .deleted
        dst := .deleted
        gray := .deleted
        contours := .deleted
        hierarchy := .deleted
        cfgWidth := w
        cfgHeight := h
        isInitialized := false } := by
      have h2 : cleanup (initializeDetector w h true st₀).1 = .ok { st₀ with
          src := .deleted
          dst := .deleted
          gray := .deleted
          contours := .deleted
          hierarchy := .deleted
          cfgWidth := w
          cfgHeight := h
          isInitialized := false } := rfl
      rw [h2] at hok
      exact (Except.ok.injEq ..).mp hok.symm
    rw [this]
    rfl

/-- Witness for the amended C9: on the fresh detector cleanup succeeds and
is idempotent; after initialize(640, 480) the first cleanup succeeds and
the second raises. -/
theorem cleanup_safe_uninitialized_but_not_idempotent_witness :
    (cleanup newObjectDetector = .ok { newObjectDetector with isInitialized := false } ∧
     cleanup { newObjectDetector with isInitialized := false } =
       .ok { newObjectDetector with isInitialized := false }) ∧
    cleanup c9Cleaned = .error .instanceDeleted :=
  ⟨(cleanup_safe_uninitialized_but_not_idempotent newObjectDetector).1
      ⟨rfl, rfl, rfl, rfl, rfl⟩,
   (cleanup_safe_uninitialized_but_not_idempotent newObjectDetector).2
      640 480 newObjectDetector c9Cleaned rfl⟩

theorem cleanup_ok_isInitialized_false {st st₂ : DetectorState}
    (h : cleanup st = .ok st₂) : st₂.isInitialized = false := by
  unfold cleanup at h
  cases h1 : deleteSlot st.src with
  | error e => rw [h1] at h; cases h
  | ok v1 =>
  rw [h1] at h
  cases h2 : deleteSlot st.dst with
  | error e => rw [h2] at h; cases h
  | ok v2 =>
  rw [h2] at h
  cases h3 : deleteSlot st.gray with
  | error e => rw [h3] at h; cases h
  | ok v3 =>
  rw [h3] at h
  cases h4 : deleteSlot st.contours with
  | error e => rw [h4] at h; cases h
  | ok v4 =>
  rw [h4] at h
  cases h5 : deleteSlot st.hierarchy with
  | error e => rw [h5] at h; cases h
  | ok v5 =>
  rw [h5] at h
  cases h
  rfl

/-- C10: calling processFrame when the detector is not initialized —
before any successful initialize, or after a cleanup has reset the flag —
returns the empty list immediately, without raising and with the state
(working buffers and stored detection set) untouched. -/
theorem processFrame_uninitialized_is_noop (st : DetectorState) (inp : FrameInput) :
    (st.isInitialized = false → processFrame st inp = (st, [])) ∧
    (∀ st₂, cleanup st = .ok st₂ → processFrame st₂ inp = (st₂, [])) := by
  have base : ∀ s : DetectorState, s.isInitialized = false →
      processFrame s inp = (s, []) := by
    intro s hs
    unfold processFrame
    rw [if_pos hs]
  exact ⟨base st, fun st₂ hok => base st₂ (cleanup_ok_isInitialized_false hok)⟩

/-- Witness for C10: the freshly constructed detector and the state left
by cleanup after initialize both make processFrame return the empty list
and leave the state unchanged. -/
theorem processFrame_uninitialized_is_noop_witness :
    processFrame newObjectDetector
        { canvasWidth := 64, canvasHeight := 48, contours := [], cvOk := true }
      = (newObjectDetector, []) ∧
    processFrame c9Cleaned
        { canvasWidth := 64, canvasHeight := 48, contours := [], cvOk := true }
      = (c9Cleaned, []) :=
  ⟨(processFrame_uninitialized_is_noop newObjectDetector
      { canvasWidth := 64, canvasHeight := 48, contours := [], cvOk := true }).1 rfl,
   (processFrame_uninitialized_is_noop c9Init
      { canvasWidth := 64, canvasHeight := 48, contours := [], cvOk := true }).2
      c9Cleaned rfl⟩

end LensAI
